import Mathlib

/-!
Verification of the webhook template service (`app/main.py`, `app/core.py`).

The development shallowly embeds the template-resolution and dispatch engine:

* `pyFormat` models the placeholder substitution used on URL, header-value and
  body string patterns (`str.format(**values)` restricted to the plain `{name}`
  fields the spec pins down: exact-match placeholder names, no defaults, no
  expressions).
* `format_recursive` is the recursive body renderer of
  `trigger_templated_webhook` (main.py lines 459-466).
* `resolveTemplate` is the resolution stage of the templated trigger endpoint
  (main.py lines 453-472), the spec's `resolve`.
* `send_webhook` embeds the dispatcher of main.py lines 107-199; the HTTP
  transport is an oracle `Request → TransportResult`, and the function also
  returns the request handed to that transport, so that theorems can speak
  about the headers that actually go on the wire.  `core_send_webhook` embeds
  the variant in core.py lines 57-107, whose fire-and-forget branch references
  the undefined name `_handle_async_task`.
* `create_template`, `update_template`, `delete_template` embed the template
  store endpoints of main.py lines 211-339 over an association-list store.
-/

namespace HookApi

/-- A substitution value supplied per trigger call (spec section 3: string,
number, or boolean, rendered to its textual form when substituted). -/
inductive Value where
  | str (s : String)
  | num (n : Int)
  | bool (b : Bool)

/-- The textual form of a substitution value, as Python's `str()` renders the
three value shapes. -/
def pyStr : Value → String
  | .str s => s
  | .num n => toString n
  | .bool true => "True"
  | .bool false => "False"

/-- Modelled from the spec: the `{name}` token scanner behind
`pattern.format(**values)` (spec sections 4.1 and 9: exact-match placeholder
names, no defaults, no expressions).  Characters are copied verbatim; `{`
opens a field whose name runs to the next `}`; a complete field is replaced
by the textual form of the looked-up value, and a missing name is the
`KeyError` carried in the `.error` result.  The list argument is the scanner
state: `none` outside a field, `some acc` inside a field with the (reversed)
name characters read so far. -/
def formatRun (values : List (String × Value)) : List Char → Option (List Char) → Except String String
  | [], none => .ok ""
  | [], some acc => .ok (String.mk ('{' :: acc.reverse))
  | c :: rest, none =>
      if c = '{' then formatRun values rest (some [])
      else (formatRun values rest none).map (fun r => String.singleton c ++ r)
  | c :: rest, some acc =>
      if c = '}' then
        match List.lookup (String.mk acc.reverse) values with
        | some v => (formatRun values rest none).map (fun r => pyStr v ++ r)
        | none => .error (String.mk acc.reverse)
      else formatRun values rest (some (c :: acc))

/-- `pattern.format(**values)`: `.ok` the substituted string, `.error name`
the first placeholder with no entry in `values`. -/
def pyFormat (values : List (String × Value)) (s : String) : Except String String :=
  formatRun values s.data none

/-- The placeholder names a string pattern references, read by the same
scanner as `formatRun`. -/
def placeholderRun : List Char → Option (List Char) → List String
  | [], _ => []
  | c :: rest, none =>
      if c = '{' then placeholderRun rest (some [])
      else placeholderRun rest none
  | c :: rest, some acc =>
      if c = '}' then String.mk acc.reverse :: placeholderRun rest none
      else placeholderRun rest (some (c :: acc))

/-- The placeholders referenced by a string pattern. -/
def placeholders (s : String) : List String :=
  placeholderRun s.data none

/-- A JSON-shaped value: the dynamically typed payloads held in
`body_template` and built by `format_recursive` (spec section 9 models them
as the tagged variant string | number | boolean | null | mapping | sequence). -/
inductive Json where
  | str (s : String)
  | num (n : Int)
  | bool (b : Bool)
  | null
  | obj (fields : List (String × Json))
  | arr (elems : List Json)

/-- Python's `isinstance(body, dict)` on a JSON-shaped value. -/
def Json.isObj : Json → Bool
  | .obj _ => true
  | _ => false

mutual

/-- The recursive body renderer of main.py lines 459-466: strings are
substituted with `pyFormat`, mappings are rebuilt with keys unchanged and
values recursively rendered, sequences elementwise, and any other leaf is
returned unchanged.  The first `KeyError` of the left-to-right traversal
propagates. -/
def format_recursive (values : List (String × Value)) : Json → Except String Json
  | .str s => (pyFormat values s).map Json.str
  | .num n => .ok (.num n)
  | .bool b => .ok (.bool b)
  | .null => .ok .null
  | .obj fields => (formatFields values fields).map Json.obj
  | .arr elems => (formatElems values elems).map Json.arr

/-- `format_recursive` over the entries of a mapping node (the dict
comprehension of main.py line 463). -/
def formatFields (values : List (String × Value)) : List (String × Json) → Except String (List (String × Json))
  | [] => .ok []
  | (k, v) :: rest =>
      match format_recursive values v with
      | .error e => .error e
      | .ok v2 =>
        match formatFields values rest with
        | .error e => .error e
        | .ok rest2 => .ok ((k, v2) :: rest2)

/-- `format_recursive` over the elements of a sequence node (the list
comprehension of main.py line 465). -/
def formatElems (values : List (String × Value)) : List Json → Except String (List Json)
  | [] => .ok []
  | v :: rest =>
      match format_recursive values v with
      | .error e => .error e
      | .ok v2 =>
        match formatElems values rest with
        | .error e => .error e
        | .ok rest2 => .ok (v2 :: rest2)

end

mutual

/-- The placeholder names referenced anywhere in a body pattern tree. -/
def jsonPlaceholders : Json → List String
  | .str s => placeholders s
  | .num _ => []
  | .bool _ => []
  | .null => []
  | .obj fields => fieldsPlaceholders fields
  | .arr elems => elemsPlaceholders elems

/-- `jsonPlaceholders` over mapping entries. -/
def fieldsPlaceholders : List (String × Json) → List String
  | [] => []
  | (_, v) :: rest => jsonPlaceholders v ++ fieldsPlaceholders rest

/-- `jsonPlaceholders` over sequence elements. -/
def elemsPlaceholders : List Json → List String
  | [] => []
  | v :: rest => jsonPlaceholders v ++ elemsPlaceholders rest

end

/-- The header rendering of main.py line 456: each header value pattern is
substituted, header names are copied verbatim.  The first `KeyError`
propagates. -/
def formatHeaders (values : List (String × Value)) : List (String × String) → Except String (List (String × String))
  | [] => .ok []
  | (k, v) :: rest =>
      match pyFormat values v with
      | .error e => .error e
      | .ok v2 =>
        match formatHeaders values rest with
        | .error e => .error e
        | .ok rest2 => .ok ((k, v2) :: rest2)

/-- The placeholders referenced by the header-value patterns. -/
def headerPlaceholders : List (String × String) → List String
  | [] => []
  | (_, v) :: rest => placeholders v ++ headerPlaceholders rest

/-- The fields of `WebhookTemplateCreate` (main.py lines 16-43): the body of
a create/update request.  `body_template` is held as a `Json` tree; the
pydantic declaration `body_template: Dict[str, Any]` means every value
arriving through the public interface satisfies `body_template.isObj`
(claim C10 takes that as its hypothesis). -/
structure WebhookTemplateCreate where
  name : String
  method : String
  url_template : String
  headers_template : List (String × String)
  body_template : Json

/-- A stored template: the create fields plus the generated id
(main.py lines 45-54). -/
structure WebhookTemplate extends WebhookTemplateCreate where
  id : String

/-- The output of resolution (spec section 3, Resolved Request): concrete
method, URL, header mapping and body. -/
structure ResolvedRequest where
  method : String
  url : String
  headers : List (String × String)
  body : Json

/-- Main.py lines 470-472: a rendered body that is not a mapping is wrapped
as a one-entry mapping under the key `data`. -/
def ensure_dict (body : Json) : Json :=
  if body.isObj then body else Json.obj [("data", body)]

/-- The resolution stage of `trigger_templated_webhook` (main.py lines
453-472), the spec's `resolve`: render the URL pattern, then each header
value pattern, then the body pattern tree, wrap a non-mapping body, and
return the concrete request with the template's method.  `.error name` is
the `KeyError` for the first missing placeholder. -/
def resolveTemplate (t : WebhookTemplateCreate) (values : List (String × Value)) : Except String ResolvedRequest :=
  match pyFormat values t.url_template with
  | .error e => .error e
  | .ok url =>
    match formatHeaders values t.headers_template with
    | .error e => .error e
    | .ok headers =>
      match format_recursive values t.body_template with
      | .error e => .error e
      | .ok body0 => .ok ⟨t.method, url, headers, ensure_dict body0⟩

/-- Every placeholder referenced by a template: URL pattern, header-value
patterns, body pattern tree. -/
def templatePlaceholders (t : WebhookTemplateCreate) : List String :=
  placeholders t.url_template ++ headerPlaceholders t.headers_template ++ jsonPlaceholders t.body_template

/-- A concrete HTTP request as handed to the transport
(`client.request(method, url, headers=headers, json=json_body)`). -/
structure Request where
  method : String
  url : String
  headers : List (String × String)
  json_body : Json

/-- A transport-level response: status code, headers, and the body both as
parsed JSON when `response.json()` succeeds and as raw text. -/
structure HttpResponse where
  status_code : Nat
  headers : List (String × String)
  json_body : Option Json
  text_body : String

/-- What awaiting `client.request` can produce: a response, an
`httpx.RequestError` (DNS failure, connection refused, timeout), or any
other unexpected exception. -/
inductive TransportResult where
  | response (r : HttpResponse)
  | requestError (cause : String)
  | otherError (cause : String)

/-- The `webhook_request` record built in main.py lines 148-152. -/
structure RequestInfo where
  method : String
  url : String
  headers : List (String × String)

/-- A dispatch outcome: the `webhook_status: success` record with the
reported request and the response snapshot, or the `webhook_status:
accepted` record carrying only the message, method and URL
(main.py lines 161-168 and 179-187). -/
inductive WebhookOutcome where
  | success (request_info : RequestInfo) (status_code : Nat) (resp_headers : List (String × String)) (body : Json)
  | accepted (message : String) (method : String) (url : String)

/-- The `webhook_status` field of an outcome. -/
def WebhookOutcome.webhook_status : WebhookOutcome → String
  | .success _ _ _ _ => "success"
  | .accepted _ _ _ => "accepted"

/-- The two `HTTPException`s `send_webhook` can raise (main.py lines
188-199): 503 for transport-level failure, identifying the target and the
cause, and 500 for any other unexpected failure. -/
inductive DispatchError where
  | unreachable (target : String) (cause : String)
  | dispatchFailure (cause : String)

/-- The HTTP status code each dispatch error is surfaced with. -/
def DispatchError.status_code : DispatchError → Nat
  | .unreachable _ _ => 503
  | .dispatchFailure _ => 500

/-- ASCII lowercasing of a header name, Python's `k.lower()` on the ASCII
header names involved. -/
def lowerAscii (s : String) : String :=
  String.mk (s.data.map Char.toLower)

/-- Main.py lines 146-147: the reported copy of the outbound headers, with
the value of any header whose lowercased name is `authorization`,
`x-api-key` or `api-key` replaced by the literal `REDACTED`. -/
def safe_headers (headers : List (String × String)) : List (String × String) :=
  headers.map (fun kv =>
    (kv.1, if ["authorization", "x-api-key", "api-key"].contains (lowerAscii kv.1) then "REDACTED" else kv.2))

/-- The dispatcher of main.py lines 107-199.  The transport oracle stands
for `client.request`; the first component of the result is the request
handed to that transport (also on the fire-and-forget path, where the same
request is scheduled as a background task), `none` when no request was
issued.  With `wait_for_response = false` the accepted record is returned
without consulting the transport; with `wait_for_response = true` the
transport outcome is awaited: a response yields the success record with the
redacted request description, an `httpx.RequestError` the 503 error naming
the target URL and cause, and any other exception the 500 error. -/
def send_webhook (transport : Request → TransportResult) (method url : String)
    (headers : List (String × String)) (json_body : Json) (wait_for_response : Bool) :
    Option Request × Except DispatchError WebhookOutcome :=
  let request_info : RequestInfo := ⟨method, url, safe_headers headers⟩
  let wire : Request := ⟨method, url, headers, json_body⟩
  if wait_for_response = false then
    (some wire, .ok (.accepted "Webhook request has been sent asynchronously" method url))
  else
    match transport wire with
    | .response resp =>
      let response_body : Json :=
        match resp.json_body with
        | some j => j
        | none => .str resp.text_body
      (some wire, .ok (.success request_info resp.status_code resp.headers response_body))
    | .requestError cause => (some wire, .error (.unreachable url cause))
    | .otherError cause => (some wire, .error (.dispatchFailure cause))

/-- The dispatcher of core.py lines 57-107.  The waiting path is identical
to main.py; the fire-and-forget branch (core.py line 72) evaluates the name
`_handle_async_task`, which is defined nowhere in the repository, so a
`NameError` is raised before any request is issued and the generic
`except Exception` handler turns it into the 500 error. -/
def core_send_webhook (transport : Request → TransportResult) (method url : String)
    (headers : List (String × String)) (json_body : Json) (wait_for_response : Bool) :
    Option Request × Except DispatchError WebhookOutcome :=
  let request_info : RequestInfo := ⟨method, url, safe_headers headers⟩
  let wire : Request := ⟨method, url, headers, json_body⟩
  if wait_for_response = false then
    (none, .error (.dispatchFailure "name _handle_async_task is not defined"))
  else
    match transport wire with
    | .response resp =>
      let response_body : Json :=
        match resp.json_body with
        | some j => j
        | none => .str resp.text_body
      (some wire, .ok (.success request_info resp.status_code resp.headers response_body))
    | .requestError cause => (some wire, .error (.unreachable url cause))
    | .otherError cause => (some wire, .error (.dispatchFailure cause))

/-- The errors the templated trigger endpoint can surface (main.py lines
446-486): 404 for an unknown template id, 400 for a missing placeholder,
and the two dispatcher errors. -/
inductive TriggerError where
  | notFound
  | missingPlaceholder (name : String)
  | unreachable (target : String) (cause : String)
  | dispatchFailure (cause : String)

/-- The HTTP status code each trigger error is surfaced with. -/
def TriggerError.status_code : TriggerError → Nat
  | .notFound => 404
  | .missingPlaceholder _ => 400
  | .unreachable _ _ => 503
  | .dispatchFailure _ => 500

/-- Lifting a dispatcher error into the endpoint's error type. -/
def TriggerError.ofDispatch : DispatchError → TriggerError
  | .unreachable t c => .unreachable t c
  | .dispatchFailure c => .dispatchFailure c

/-- The in-memory template store (main.py line 14): the dict's entries in
insertion order, keyed by the generated id. -/
abbrev Db := List (String × WebhookTemplate)

/-- The endpoint `trigger_templated_webhook` (main.py lines 396-486): look
the template up, resolve it against the supplied values (404 / 400 on
failure, with no request dispatched), then dispatch with the template's
method.  As in `send_webhook`, the first component is the request handed to
the transport. -/
def trigger_templated_webhook (transport : Request → TransportResult) (db : Db)
    (template_id : String) (values : List (String × Value)) (wait_for_response : Bool) :
    Option Request × Except TriggerError WebhookOutcome :=
  match List.lookup template_id db with
  | none => (none, .error .notFound)
  | some template =>
    match resolveTemplate template.toWebhookTemplateCreate values with
    | .error name => (none, .error (.missingPlaceholder name))
    | .ok r =>
      let sent := send_webhook transport template.method r.url r.headers r.body wait_for_response
      (sent.1, sent.2.mapError TriggerError.ofDispatch)

/-- The errors of the template CRUD endpoints, plus the Python `TypeError`
that terminates a successful update (see `update_template`). -/
inductive ApiError where
  | notFound
  | nameConflict (name : String)
  | typeError (msg : String)

/-- Python dict assignment `db[k] = v`: replace the value at an existing
key in place, else append the new entry. -/
def dict_assign (db : Db) (k : String) (v : WebhookTemplate) : Db :=
  if db.any (fun e => e.1 == k) then db.map (fun e => if e.1 == k then (k, v) else e)
  else db ++ [(k, v)]

/-- The endpoint `create_template` (main.py lines 211-259): 409 when any
stored template already has the requested name, else store the new template
under the freshly generated id (a parameter here) and return it.  The store
after the call is the first component. -/
def create_template (db : Db) (template_id : String) (template : WebhookTemplateCreate) :
    Db × Except ApiError WebhookTemplate :=
  if db.any (fun e => e.2.name == template.name) then
    (db, .error (.nameConflict template.name))
  else
    let new_template : WebhookTemplate := { toWebhookTemplateCreate := template, id := template_id }
    (dict_assign db template_id new_template, .ok new_template)

/-- `db[template_id].update(template_update.dict())` on one stored entry:
the five create fields are replaced, the stored id is untouched. -/
def applyUpdate (t : WebhookTemplate) (u : WebhookTemplateCreate) : WebhookTemplate :=
  { t with toWebhookTemplateCreate := u }

/-- The endpoint `update_template` (main.py lines 289-319): 404 when the id
is unknown; 409 when a template with a different id already has the
requested name; otherwise the stored entry is updated in place — and the
response construction `WebhookTemplate(id=template_id, **db[template_id])`
then passes the keyword `id` twice (explicitly and inside the stored
mapping, which still holds its `id` key), so Python raises `TypeError`
after the store has been mutated and the endpoint answers 500. -/
def update_template (db : Db) (template_id : String) (template_update : WebhookTemplateCreate) :
    Db × Except ApiError WebhookTemplate :=
  if (List.lookup template_id db).isNone then (db, .error .notFound)
  else if db.any (fun e => e.2.name == template_update.name && e.1 != template_id) then
    (db, .error (.nameConflict template_update.name))
  else
    let db2 := db.map (fun e => if e.1 == template_id then (e.1, applyUpdate e.2 template_update) else e)
    (db2, .error (.typeError "got multiple values for keyword argument id"))

/-- The endpoint `delete_template` (main.py lines 322-339): 404 when the id
is unknown, else remove the entry. -/
def delete_template (db : Db) (template_id : String) : Db × Except ApiError Unit :=
  if (List.lookup template_id db).isNone then (db, .error .notFound)
  else (db.filter (fun e => e.1 != template_id), .ok ())

/-- The names of the stored templates, in store order. -/
def tmplNames (db : Db) : List String :=
  db.map (fun e => e.2.name)

/-- The store invariant: ids are pairwise distinct (dict keys) and template
names are pairwise distinct (spec section 3). -/
def StoreInv (db : Db) : Prop :=
  (db.map Prod.fst).Nodup ∧ (tmplNames db).Nodup

/-- One template-store operation, as issued by the CRUD endpoints. -/
inductive StoreOp where
  | create (template_id : String) (template : WebhookTemplateCreate)
  | update (template_id : String) (template_update : WebhookTemplateCreate)
  | delete (template_id : String)

/-- The store after one operation (the response is discarded). -/
def applyOp (db : Db) : StoreOp → Db
  | .create tid t => (create_template db tid t).1
  | .update tid t => (update_template db tid t).1
  | .delete tid => (delete_template db tid).1

/-- The store after a sequence of operations. -/
def applyOps (db : Db) : List StoreOp → Db
  | [] => db
  | op :: ops => applyOps (applyOp db op) ops

/-! ## Helper lemmas about the scanner -/

/-- Whether an `Except` result is a success. -/
def isOkE {ε α : Type} : Except ε α → Bool
  | .ok _ => true
  | .error _ => false

theorem isOkE_map {ε α β : Type} (f : α → β) (e : Except ε α) : isOkE (e.map f) = isOkE e := by
  cases e <;> rfl

theorem map_eq_error {ε α β : Type} (f : α → β) (e : Except ε α) (n : ε) :
    e.map f = .error n ↔ e = .error n := by
  cases e <;> simp [Except.map]

theorem formatRun_close_some (values : List (String × Value)) (rest acc : List Char) (v : Value)
    (hl : List.lookup (String.mk acc.reverse) values = some v) :
    formatRun values ('}' :: rest) (some acc) = (formatRun values rest none).map (fun r => pyStr v ++ r) := by
  simp [formatRun, hl]

theorem formatRun_close_none (values : List (String × Value)) (rest acc : List Char)
    (hl : List.lookup (String.mk acc.reverse) values = none) :
    formatRun values ('}' :: rest) (some acc) = .error (String.mk acc.reverse) := by
  simp [formatRun, hl]

theorem placeholderRun_close (rest acc : List Char) :
    placeholderRun ('}' :: rest) (some acc) = String.mk acc.reverse :: placeholderRun rest none := by
  simp [placeholderRun]

/-- The scanner succeeds exactly when every referenced placeholder has an
entry in the value set. -/
theorem formatRun_ok_iff (values : List (String × Value)) (cs : List Char) (mode : Option (List Char)) :
    isOkE (formatRun values cs mode) = true ↔
      ∀ n ∈ placeholderRun cs mode, (List.lookup n values).isSome = true := by
  induction cs, mode using formatRun.induct values with
  | case1 => simp [formatRun, placeholderRun, isOkE]
  | case2 acc => simp [formatRun, placeholderRun, isOkE]
  | case3 rest ih => simpa [formatRun, placeholderRun] using ih
  | case4 c rest hc ih => simpa [formatRun, placeholderRun, hc, isOkE_map] using ih
  | case5 rest acc v hl ih =>
    rw [formatRun_close_some values rest acc v hl, placeholderRun_close, isOkE_map]
    simp only [List.mem_cons, forall_eq_or_imp, hl, Option.isSome_some, eq_self_iff_true, true_and]
    exact ih
  | case6 rest acc hl =>
    rw [formatRun_close_none values rest acc hl, placeholderRun_close]
    refine iff_of_false (by simp [isOkE]) (fun hcon => ?_)
    have hx := hcon _ (List.mem_cons_self _ _)
    rw [hl] at hx
    simp at hx
  | case7 c rest acc hc ih => simpa [formatRun, placeholderRun, hc] using ih

/-- A scanner failure names a referenced placeholder that is missing from
the value set. -/
theorem formatRun_error (values : List (String × Value)) (cs : List Char) (mode : Option (List Char))
    (n : String) (h : formatRun values cs mode = .error n) :
    n ∈ placeholderRun cs mode ∧ List.lookup n values = none := by
  induction cs, mode using formatRun.induct values with
  | case1 => simp [formatRun] at h
  | case2 acc => simp [formatRun] at h
  | case3 rest ih =>
    simp only [formatRun, if_pos rfl] at h
    simpa [placeholderRun] using ih h
  | case4 c rest hc ih =>
    simp only [formatRun, if_neg hc] at h
    rw [map_eq_error] at h
    simpa [placeholderRun, hc] using ih h
  | case5 rest acc v hl ih =>
    rw [formatRun_close_some values rest acc v hl, map_eq_error] at h
    rw [placeholderRun_close]
    exact ⟨List.mem_cons_of_mem _ (ih h).1, (ih h).2⟩
  | case6 rest acc hl =>
    rw [formatRun_close_none values rest acc hl] at h
    cases h
    rw [placeholderRun_close]
    exact ⟨List.mem_cons_self _ _, hl⟩
  | case7 c rest acc hc ih =>
    simp only [formatRun, if_neg hc] at h
    simpa [placeholderRun, hc] using ih h

theorem pyFormat_ok_iff (values : List (String × Value)) (s : String) :
    isOkE (pyFormat values s) = true ↔
      ∀ n ∈ placeholders s, (List.lookup n values).isSome = true :=
  formatRun_ok_iff values s.data none

theorem pyFormat_error (values : List (String × Value)) (s : String) (n : String)
    (h : pyFormat values s = .error n) :
    n ∈ placeholders s ∧ List.lookup n values = none :=
  formatRun_error values s.data none n h

/-! ## Helper lemmas about the body renderer -/

mutual

/-- The body renderer succeeds exactly when every placeholder referenced in
the tree has an entry in the value set. -/
theorem format_recursive_ok_iff (values : List (String × Value)) (j : Json) :
    isOkE (format_recursive values j) = true ↔
      ∀ n ∈ jsonPlaceholders j, (List.lookup n values).isSome = true := by
  cases j with
  | str s =>
    rw [show format_recursive values (.str s) = (pyFormat values s).map Json.str from rfl, isOkE_map]
    exact pyFormat_ok_iff values s
  | num n => simp [format_recursive, jsonPlaceholders, isOkE]
  | bool b => simp [format_recursive, jsonPlaceholders, isOkE]
  | null => simp [format_recursive, jsonPlaceholders, isOkE]
  | obj fields =>
    rw [show format_recursive values (.obj fields) = (formatFields values fields).map Json.obj from rfl,
      isOkE_map]
    exact formatFields_ok_iff values fields
  | arr elems =>
    rw [show format_recursive values (.arr elems) = (formatElems values elems).map Json.arr from rfl,
      isOkE_map]
    exact formatElems_ok_iff values elems

theorem formatFields_ok_iff (values : List (String × Value)) (fs : List (String × Json)) :
    isOkE (formatFields values fs) = true ↔
      ∀ n ∈ fieldsPlaceholders fs, (List.lookup n values).isSome = true := by
  cases fs with
  | nil => simp [formatFields, fieldsPlaceholders, isOkE]
  | cons kv rest =>
    obtain ⟨k, v⟩ := kv
    have hv := format_recursive_ok_iff values v
    have hr := formatFields_ok_iff values rest
    rw [show formatFields values ((k, v) :: rest) =
        (match format_recursive values v with
         | .error e => .error e
         | .ok v2 =>
           match formatFields values rest with
           | .error e => .error e
           | .ok rest2 => .ok ((k, v2) :: rest2)) from rfl]
    rw [show fieldsPlaceholders ((k, v) :: rest) = jsonPlaceholders v ++ fieldsPlaceholders rest from rfl]
    rw [List.forall_mem_append]
    rcases hfv : format_recursive values v with e | v2 <;> rw [hfv] at hv
    · exact iff_of_false (by simp [isOkE]) (fun hcon => by simpa [isOkE] using hv.mpr hcon.1)
    · rcases hfr : formatFields values rest with e | rest2 <;> rw [hfr] at hr
      · exact iff_of_false (by simp [isOkE]) (fun hcon => by simpa [isOkE] using hr.mpr hcon.2)
      · refine iff_of_true (by simp [isOkE]) ⟨hv.mp (by simp [isOkE]), hr.mp (by simp [isOkE])⟩

theorem formatElems_ok_iff (values : List (String × Value)) (es : List Json) :
    isOkE (formatElems values es) = true ↔
      ∀ n ∈ elemsPlaceholders es, (List.lookup n values).isSome = true := by
  cases es with
  | nil => simp [formatElems, elemsPlaceholders, isOkE]
  | cons v rest =>
    have hv := format_recursive_ok_iff values v
    have hr := formatElems_ok_iff values rest
    rw [show formatElems values (v :: rest) =
        (match format_recursive values v with
         | .error e => .error e
         | .ok v2 =>
           match formatElems values rest with
           | .error e => .error e
           | .ok rest2 => .ok (v2 :: rest2)) from rfl]
    rw [show elemsPlaceholders (v :: rest) = jsonPlaceholders v ++ elemsPlaceholders rest from rfl]
    rw [List.forall_mem_append]
    rcases hfv : format_recursive values v with e | v2 <;> rw [hfv] at hv
    · exact iff_of_false (by simp [isOkE]) (fun hcon => by simpa [isOkE] using hv.mpr hcon.1)
    · rcases hfr : formatElems values rest with e | rest2 <;> rw [hfr] at hr
      · exact iff_of_false (by simp [isOkE]) (fun hcon => by simpa [isOkE] using hr.mpr hcon.2)
      · refine iff_of_true (by simp [isOkE]) ⟨hv.mp (by simp [isOkE]), hr.mp (by simp [isOkE])⟩

end

mutual

/-- A body-renderer failure names a referenced placeholder that is missing
from the value set. -/
theorem format_recursive_error (values : List (String × Value)) (j : Json) (n : String)
    (h : format_recursive values j = .error n) :
    n ∈ jsonPlaceholders j ∧ List.lookup n values = none := by
  cases j with
  | str s =>
    rw [show format_recursive values (.str s) = (pyFormat values s).map Json.str from rfl,
      map_eq_error] at h
    exact pyFormat_error values s n h
  | num m => simp [format_recursive] at h
  | bool b => simp [format_recursive] at h
  | null => simp [format_recursive] at h
  | obj fields =>
    rw [show format_recursive values (.obj fields) = (formatFields values fields).map Json.obj from rfl,
      map_eq_error] at h
    exact formatFields_error values fields n h
  | arr elems =>
    rw [show format_recursive values (.arr elems) = (formatElems values elems).map Json.arr from rfl,
      map_eq_error] at h
    exact formatElems_error values elems n h

theorem formatFields_error (values : List (String × Value)) (fs : List (String × Json)) (n : String)
    (h : formatFields values fs = .error n) :
    n ∈ fieldsPlaceholders fs ∧ List.lookup n values = none := by
  cases fs with
  | nil => simp [formatFields] at h
  | cons kv rest =>
    obtain ⟨k, v⟩ := kv
    rw [show formatFields values ((k, v) :: rest) =
        (match format_recursive values v with
         | .error e => .error e
         | .ok v2 =>
           match formatFields values rest with
           | .error e => .error e
           | .ok rest2 => .ok ((k, v2) :: rest2)) from rfl] at h
    rw [show fieldsPlaceholders ((k, v) :: rest) = jsonPlaceholders v ++ fieldsPlaceholders rest from rfl]
    rcases hfv : format_recursive values v with e | v2 <;> rw [hfv] at h
    · cases h
      have hx := format_recursive_error values v n hfv
      exact ⟨List.mem_append_left _ hx.1, hx.2⟩
    · rcases hfr : formatFields values rest with e | rest2 <;> rw [hfr] at h
      · cases h
        have hx := formatFields_error values rest n hfr
        exact ⟨List.mem_append_right _ hx.1, hx.2⟩
      · cases h

theorem formatElems_error (values : List (String × Value)) (es : List Json) (n : String)
    (h : formatElems values es = .error n) :
    n ∈ elemsPlaceholders es ∧ List.lookup n values = none := by
  cases es with
  | nil => simp [formatElems] at h
  | cons v rest =>
    rw [show formatElems values (v :: rest) =
        (match format_recursive values v with
         | .error e => .error e
         | .ok v2 =>
           match formatElems values rest with
           | .error e => .error e
           | .ok rest2 => .ok (v2 :: rest2)) from rfl] at h
    rw [show elemsPlaceholders (v :: rest) = jsonPlaceholders v ++ elemsPlaceholders rest from rfl]
    rcases hfv : format_recursive values v with e | v2 <;> rw [hfv] at h
    · cases h
      have hx := format_recursive_error values v n hfv
      exact ⟨List.mem_append_left _ hx.1, hx.2⟩
    · rcases hfr : formatElems values rest with e | rest2 <;> rw [hfr] at h
      · cases h
        have hx := formatElems_error values rest n hfr
        exact ⟨List.mem_append_right _ hx.1, hx.2⟩
      · cases h

end

/-! ## Helper lemmas about header rendering and resolution -/

theorem formatHeaders_ok_iff (values : List (String × Value)) (hs : List (String × String)) :
    isOkE (formatHeaders values hs) = true ↔
      ∀ n ∈ headerPlaceholders hs, (List.lookup n values).isSome = true := by
  induction hs with
  | nil => simp [formatHeaders, headerPlaceholders, isOkE]
  | cons kv rest ih =>
    obtain ⟨k, v⟩ := kv
    have hv := pyFormat_ok_iff values v
    rw [show formatHeaders values ((k, v) :: rest) =
        (match pyFormat values v with
         | .error e => .error e
         | .ok v2 =>
           match formatHeaders values rest with
           | .error e => .error e
           | .ok rest2 => .ok ((k, v2) :: rest2)) from rfl]
    rw [show headerPlaceholders ((k, v) :: rest) = placeholders v ++ headerPlaceholders rest from rfl]
    rw [List.forall_mem_append]
    rcases hfv : pyFormat values v with e | v2 <;> rw [hfv] at hv
    · exact iff_of_false (by simp [isOkE]) (fun hcon => by simpa [isOkE] using hv.mpr hcon.1)
    · rcases hfr : formatHeaders values rest with e | rest2 <;> rw [hfr] at ih
      · exact iff_of_false (by simp [isOkE]) (fun hcon => by simpa [isOkE] using ih.mpr hcon.2)
      · refine iff_of_true (by simp [isOkE]) ⟨hv.mp (by simp [isOkE]), ih.mp (by simp [isOkE])⟩

theorem formatHeaders_error (values : List (String × Value)) (hs : List (String × String)) (n : String)
    (h : formatHeaders values hs = .error n) :
    n ∈ headerPlaceholders hs ∧ List.lookup n values = none := by
  induction hs with
  | nil => simp [formatHeaders] at h
  | cons kv rest ih =>
    obtain ⟨k, v⟩ := kv
    rw [show formatHeaders values ((k, v) :: rest) =
        (match pyFormat values v with
         | .error e => .error e
         | .ok v2 =>
           match formatHeaders values rest with
           | .error e => .error e
           | .ok rest2 => .ok ((k, v2) :: rest2)) from rfl] at h
    rw [show headerPlaceholders ((k, v) :: rest) = placeholders v ++ headerPlaceholders rest from rfl]
    rcases hfv : pyFormat values v with e | v2 <;> rw [hfv] at h
    · cases h
      have hx := pyFormat_error values v n hfv
      exact ⟨List.mem_append_left _ hx.1, hx.2⟩
    · rcases hfr : formatHeaders values rest with e | rest2 <;> rw [hfr] at h
      · cases h
        have hx := ih hfr
        exact ⟨List.mem_append_right _ hx.1, hx.2⟩
      · cases h

/-- Rendering the header mapping never changes the header names. -/
theorem formatHeaders_keys (values : List (String × Value)) (hs hs2 : List (String × String))
    (h : formatHeaders values hs = .ok hs2) :
    hs2.map Prod.fst = hs.map Prod.fst := by
  induction hs generalizing hs2 with
  | nil => cases h; rfl
  | cons kv rest ih =>
    obtain ⟨k, v⟩ := kv
    rw [show formatHeaders values ((k, v) :: rest) =
        (match pyFormat values v with
         | .error e => .error e
         | .ok v2 =>
           match formatHeaders values rest with
           | .error e => .error e
           | .ok rest2 => .ok ((k, v2) :: rest2)) from rfl] at h
    rcases hfv : pyFormat values v with e | v2 <;> rw [hfv] at h
    · cases h
    · rcases hfr : formatHeaders values rest with e | rest2 <;> rw [hfr] at h
      · cases h
      · cases h
        simpa using ih rest2 hfr

/-- Resolution succeeds exactly when every placeholder referenced anywhere
in the template has an entry in the value set. -/
theorem resolveTemplate_ok_iff (t : WebhookTemplateCreate) (values : List (String × Value)) :
    isOkE (resolveTemplate t values) = true ↔
      ∀ n ∈ templatePlaceholders t, (List.lookup n values).isSome = true := by
  have hu := pyFormat_ok_iff values t.url_template
  have hh := formatHeaders_ok_iff values t.headers_template
  have hb := format_recursive_ok_iff values t.body_template
  rw [templatePlaceholders, List.append_assoc, List.forall_mem_append, List.forall_mem_append]
  rw [resolveTemplate]
  rcases hfu : pyFormat values t.url_template with e | url <;> rw [hfu] at hu
  · exact iff_of_false (by simp [isOkE]) (fun hcon => by simpa [isOkE] using hu.mpr hcon.1)
  · rcases hfh : formatHeaders values t.headers_template with e | headers <;> rw [hfh] at hh
    · exact iff_of_false (by simp [isOkE]) (fun hcon => by simpa [isOkE] using hh.mpr hcon.2.1)
    · rcases hfb : format_recursive values t.body_template with e | body0 <;> rw [hfb] at hb
      · exact iff_of_false (by simp [isOkE]) (fun hcon => by simpa [isOkE] using hb.mpr hcon.2.2)
      · refine iff_of_true (by simp [isOkE])
          ⟨hu.mp (by simp [isOkE]), hh.mp (by simp [isOkE]), hb.mp (by simp [isOkE])⟩

/-- A resolution failure names a placeholder referenced by the template that
is missing from the value set. -/
theorem resolveTemplate_error (t : WebhookTemplateCreate) (values : List (String × Value)) (n : String)
    (h : resolveTemplate t values = .error n) :
    n ∈ templatePlaceholders t ∧ List.lookup n values = none := by
  rw [templatePlaceholders, List.append_assoc]
  rw [resolveTemplate] at h
  rcases hfu : pyFormat values t.url_template with e | url <;> rw [hfu] at h
  · cases h
    have hx := pyFormat_error values t.url_template n hfu
    exact ⟨List.mem_append_left _ hx.1, hx.2⟩
  · rcases hfh : formatHeaders values t.headers_template with e | headers <;> rw [hfh] at h
    · cases h
      have hx := formatHeaders_error values t.headers_template n hfh
      exact ⟨List.mem_append_right _ (List.mem_append_left _ hx.1), hx.2⟩
    · rcases hfb : format_recursive values t.body_template with e | body0 <;> rw [hfb] at h
      · cases h
        have hx := format_recursive_error values t.body_template n hfb
        exact ⟨List.mem_append_right _ (List.mem_append_right _ hx.1), hx.2⟩
      · cases h

/-- A successful resolution is assembled from the three rendering stages. -/
theorem resolveTemplate_ok_parts (t : WebhookTemplateCreate) (values : List (String × Value))
    (r : ResolvedRequest) (h : resolveTemplate t values = .ok r) :
    r.method = t.method ∧ pyFormat values t.url_template = .ok r.url ∧
      formatHeaders values t.headers_template = .ok r.headers ∧
      ∃ body0, format_recursive values t.body_template = .ok body0 ∧ r.body = ensure_dict body0 := by
  rw [resolveTemplate] at h
  rcases hfu : pyFormat values t.url_template with e | url <;> rw [hfu] at h
  · cases h
  · rcases hfh : formatHeaders values t.headers_template with e | headers <;> rw [hfh] at h
    · cases h
    · rcases hfb : format_recursive values t.body_template with e | body0 <;> rw [hfb] at h
      · cases h
      · cases h
        exact ⟨rfl, rfl, rfl, body0, rfl, rfl⟩

/-! ## Helper lemmas about the template store -/

theorem map_replace_eq_self (l : Db) (k : String)
    (f : String × WebhookTemplate → String × WebhookTemplate)
    (h : ∀ e ∈ l, e.1 ≠ k) :
    l.map (fun e => if e.1 == k then f e else e) = l := by
  induction l with
  | nil => rfl
  | cons e tail ih =>
    have he : (e.1 == k) = false := beq_eq_false_iff_ne.mpr (h e (List.mem_cons_self _ _))
    simp only [List.map_cons, he, Bool.false_eq_true, if_false]
    rw [ih (fun x hx => h x (List.mem_cons_of_mem _ hx))]

theorem keys_replace (l : Db) (k : String)
    (f : String × WebhookTemplate → String × WebhookTemplate)
    (hf : ∀ e ∈ l, e.1 = k → (f e).1 = e.1) :
    (l.map (fun e => if e.1 == k then f e else e)).map Prod.fst = l.map Prod.fst := by
  induction l with
  | nil => rfl
  | cons e tail ih =>
    simp only [List.map_cons]
    rw [ih (fun x hx => hf x (List.mem_cons_of_mem _ hx))]
    by_cases he : e.1 = k
    · rw [if_pos (beq_iff_eq.mpr he), hf e (List.mem_cons_self _ _) he]
    · rw [if_neg (by simp [he])]

theorem names_replace_nodup (l : Db) (k : String)
    (f : String × WebhookTemplate → String × WebhookTemplate) (newName : String)
    (hfn : ∀ e ∈ l, e.1 = k → (f e).2.name = newName)
    (hk : (l.map Prod.fst).Nodup)
    (hn : (tmplNames l).Nodup)
    (hfresh : ∀ e ∈ l, e.1 ≠ k → e.2.name ≠ newName) :
    (tmplNames (l.map (fun e => if e.1 == k then f e else e))).Nodup := by
  induction l with
  | nil => simp [tmplNames]
  | cons e tail ih =>
    simp only [tmplNames, List.map_cons, List.nodup_cons] at hk hn ⊢
    by_cases he : e.1 = k
    · have htail : ∀ x ∈ tail, x.1 ≠ k := by
        intro x hx hxk
        exact hk.1 (he ▸ hxk ▸ List.mem_map_of_mem Prod.fst hx)
      rw [if_pos (beq_iff_eq.mpr he), map_replace_eq_self tail k f htail]
      constructor
      · rw [hfn e (List.mem_cons_self _ _) he]
        intro hmem
        rcases List.mem_map.mp hmem with ⟨x, hx, hxn⟩
        exact hfresh x (List.mem_cons_of_mem _ hx) (htail x hx) hxn
      · exact hn.2
    · rw [if_neg (by simp [he])]
      constructor
      · intro hmem
        rcases List.mem_map.mp hmem with ⟨y, hy, hyn⟩
        rcases List.mem_map.mp hy with ⟨x, hx, hxy⟩
        by_cases hxk : x.1 = k
        · rw [← hxy] at hyn
          rw [if_pos (beq_iff_eq.mpr hxk)] at hyn
          rw [hfn x (List.mem_cons_of_mem _ hx) hxk] at hyn
          exact hfresh e (List.mem_cons_self _ _) he hyn.symm
        · rw [← hxy] at hyn
          rw [if_neg (by simp [hxk])] at hyn
          exact hn.1 (hyn ▸ List.mem_map_of_mem (fun z => z.2.name) hx)
      · exact ih (fun x hx => hfn x (List.mem_cons_of_mem _ hx)) hk.2 hn.2
          (fun x hx => hfresh x (List.mem_cons_of_mem _ hx))

theorem dict_assign_inv (db : Db) (k : String) (v : WebhookTemplate)
    (inv : StoreInv db) (hfresh : ∀ e ∈ db, e.2.name ≠ v.name) :
    StoreInv (dict_assign db k v) := by
  rw [dict_assign]
  by_cases hany : db.any (fun e => e.1 == k) = true
  · rw [if_pos hany]
    constructor
    · rw [keys_replace db k (fun _ => (k, v)) (fun e _ he => he.symm)]
      exact inv.1
    · exact names_replace_nodup db k (fun _ => (k, v)) v.name (fun e _ _ => rfl) inv.1 inv.2
        (fun e he _ => hfresh e he)
  · rw [if_neg hany]
    have hnk : ∀ e ∈ db, e.1 ≠ k := by
      intro e he hek
      exact hany (List.any_eq_true.mpr ⟨e, he, beq_iff_eq.mpr hek⟩)
    constructor
    · simp only [List.map_append, List.map_cons, List.map_nil]
      rw [List.nodup_append]
      refine ⟨inv.1, List.nodup_singleton _, ?_⟩
      intro x hx hxk
      rcases List.mem_map.mp hx with ⟨e, he, hex⟩
      simp only [List.mem_singleton] at hxk
      exact hnk e he (hxk ▸ hex)
    · simp only [tmplNames, List.map_append, List.map_cons, List.map_nil]
      rw [List.nodup_append]
      refine ⟨inv.2, List.nodup_singleton _, ?_⟩
      intro x hx hxn
      rcases List.mem_map.mp hx with ⟨e, he, hex⟩
      simp only [List.mem_singleton] at hxn
      exact hfresh e he (hxn ▸ hex)

theorem create_template_inv (db : Db) (tid : String) (tc : WebhookTemplateCreate)
    (inv : StoreInv db) :
    StoreInv (create_template db tid tc).1 := by
  rw [create_template]
  by_cases hany : db.any (fun e => e.2.name == tc.name) = true
  · rw [if_pos hany]
    exact inv
  · rw [if_neg hany]
    refine dict_assign_inv db tid _ inv ?_
    intro e he hen
    exact hany (List.any_eq_true.mpr ⟨e, he, beq_iff_eq.mpr hen⟩)

theorem update_template_inv (db : Db) (tid : String) (tu : WebhookTemplateCreate)
    (inv : StoreInv db) :
    StoreInv (update_template db tid tu).1 := by
  rw [update_template]
  by_cases h404 : (List.lookup tid db).isNone = true
  · rw [if_pos h404]
    exact inv
  · rw [if_neg h404]
    by_cases hany : db.any (fun e => e.2.name == tu.name && e.1 != tid) = true
    · rw [if_pos hany]
      exact inv
    · rw [if_neg hany]
      constructor
      · rw [keys_replace db tid (fun e => (e.1, applyUpdate e.2 tu)) (fun e _ _ => rfl)]
        exact inv.1
      · refine names_replace_nodup db tid (fun e => (e.1, applyUpdate e.2 tu)) tu.name
          (fun e _ _ => rfl) inv.1 inv.2 ?_
        intro e he hek hen
        exact hany (List.any_eq_true.mpr ⟨e, he, by
          simp only [Bool.and_eq_true, bne_iff_ne, ne_eq]
          exact ⟨beq_iff_eq.mpr hen, hek⟩⟩)

theorem delete_template_inv (db : Db) (tid : String) (inv : StoreInv db) :
    StoreInv (delete_template db tid).1 := by
  rw [delete_template]
  by_cases h404 : (List.lookup tid db).isNone = true
  · rw [if_pos h404]
    exact inv
  · rw [if_neg h404]
    constructor
    · exact inv.1.sublist (List.Sublist.map Prod.fst (List.filter_sublist db))
    · exact inv.2.sublist (List.Sublist.map _ (List.filter_sublist db))

theorem applyOp_inv (db : Db) (op : StoreOp) (inv : StoreInv db) : StoreInv (applyOp db op) := by
  cases op with
  | create tid t => exact create_template_inv db tid t inv
  | update tid t => exact update_template_inv db tid t inv
  | delete tid => exact delete_template_inv db tid inv

theorem applyOps_inv (db : Db) (ops : List StoreOp) (inv : StoreInv db) :
    StoreInv (applyOps db ops) := by
  induction ops generalizing db with
  | nil => exact inv
  | cons op rest ih => exact ih _ (applyOp_inv db op inv)

/-! ## Claim theorems -/

/-- Wrapping always yields a mapping. -/
theorem ensure_dict_isObj (b : Json) : (ensure_dict b).isObj = true := by
  cases b <;> simp [ensure_dict, Json.isObj]

/-- The reported header mapping of a redacted request description passes the
redaction check: every entry whose lowercased name is `authorization`,
`x-api-key` or `api-key` carries the literal value `REDACTED`. -/
theorem safe_headers_all_redacted (hdrs : List (String × String)) :
    (safe_headers hdrs).all (fun kv =>
      !(["authorization", "x-api-key", "api-key"].contains (lowerAscii kv.1)) ||
        kv.2 == "REDACTED") = true := by
  rw [safe_headers, List.all_map]
  refine List.all_eq_true.mpr ?_
  intro kv _
  simp only [Function.comp_apply]
  by_cases hc : ["authorization", "x-api-key", "api-key"].contains (lowerAscii kv.1) = true
  · rw [if_pos hc, hc]
    rfl
  · simp only [Bool.not_eq_true] at hc
    rw [if_neg (by rw [hc]; exact Bool.false_ne_true), hc]
    rfl

/-- C1.  For every dispatch call with `wait = true` that returns a success
outcome, the header mapping in the reported request description is the
redacted copy of the outbound headers — every header whose name
case-insensitively matches `authorization`, `x-api-key` or `api-key` carries
the literal value `REDACTED` in place of the original — while the request
handed to the transport carries the original headers unchanged. -/
theorem redaction_of_reported_headers (transport : Request → TransportResult)
    (method url : String) (headers : List (String × String)) (json_body : Json)
    (ri : RequestInfo) (sc : Nat) (rh : List (String × String)) (rb : Json)
    (hs : (send_webhook transport method url headers json_body true).2 =
      .ok (.success ri sc rh rb)) :
    ri.headers = safe_headers headers ∧
    ri.headers.all (fun kv =>
      !(["authorization", "x-api-key", "api-key"].contains (lowerAscii kv.1)) ||
        kv.2 == "REDACTED") = true ∧
    (send_webhook transport method url headers json_body true).1 =
      some ⟨method, url, headers, json_body⟩ := by
  rcases htr : transport ⟨method, url, headers, json_body⟩ with resp | cause | cause
  · rw [show (send_webhook transport method url headers json_body true).2 =
        .ok (.success ⟨method, url, safe_headers headers⟩ resp.status_code resp.headers
          (match resp.json_body with | some j => j | none => .str resp.text_body)) from by
      simp [send_webhook, htr]] at hs
    injection hs with h1
    injection h1 with hri hsc hrh hrb
    subst hri
    exact ⟨rfl, safe_headers_all_redacted headers, by simp [send_webhook, htr]⟩
  · simp [send_webhook, htr] at hs
  · simp [send_webhook, htr] at hs

/-- C1 witness: a concrete call with an `Authorization` header. -/
theorem redaction_of_reported_headers_witness :
    (RequestInfo.mk "POST" "http://h/"
        [("Authorization", "REDACTED"), ("X-Other", "v")]).headers =
      safe_headers [("Authorization", "Bearer secret"), ("X-Other", "v")] ∧
    (RequestInfo.mk "POST" "http://h/"
        [("Authorization", "REDACTED"), ("X-Other", "v")]).headers.all (fun kv =>
      !(["authorization", "x-api-key", "api-key"].contains (lowerAscii kv.1)) ||
        kv.2 == "REDACTED") = true ∧
    (send_webhook (fun _ => .response ⟨200, [], none, "ok"⟩) "POST" "http://h/"
      [("Authorization", "Bearer secret"), ("X-Other", "v")] Json.null true).1 =
      some ⟨"POST", "http://h/", [("Authorization", "Bearer secret"), ("X-Other", "v")], Json.null⟩ :=
  redaction_of_reported_headers (fun _ => .response ⟨200, [], none, "ok"⟩) "POST" "http://h/"
    [("Authorization", "Bearer secret"), ("X-Other", "v")] Json.null
    ⟨"POST", "http://h/", [("Authorization", "REDACTED"), ("X-Other", "v")]⟩ 200 [] (.str "ok") rfl

/-- C2.  For every stored template and value set missing at least one
referenced placeholder, resolution fails with the `KeyError` naming one of
the missing placeholders, the endpoint answers with the 400
missing-placeholder error, and no request is handed to the transport. -/
theorem missing_placeholder_fails_resolution (transport : Request → TransportResult)
    (db : Db) (template_id : String) (stored : WebhookTemplate)
    (values : List (String × Value)) (wait_for_response : Bool)
    (hdb : List.lookup template_id db = some stored)
    (hmiss : (templatePlaceholders stored.toWebhookTemplateCreate).any
      (fun n => (List.lookup n values).isNone) = true) :
    ∃ name, List.lookup name values = none ∧
      name ∈ templatePlaceholders stored.toWebhookTemplateCreate ∧
      resolveTemplate stored.toWebhookTemplateCreate values = .error name ∧
      trigger_templated_webhook transport db template_id values wait_for_response =
        (none, .error (.missingPlaceholder name)) ∧
      TriggerError.status_code (.missingPlaceholder name) = 400 := by
  have hnotok : ¬ isOkE (resolveTemplate stored.toWebhookTemplateCreate values) = true := by
    intro hok
    rcases List.any_eq_true.mp hmiss with ⟨n0, hn0, hnone⟩
    have := (resolveTemplate_ok_iff stored.toWebhookTemplateCreate values).mp hok n0 hn0
    rw [Option.isNone_iff_eq_none.mp hnone] at this
    simp at this
  rcases hres : resolveTemplate stored.toWebhookTemplateCreate values with name | r
  · have hx := resolveTemplate_error stored.toWebhookTemplateCreate values name hres
    refine ⟨name, hx.2, hx.1, rfl, ?_, rfl⟩
    simp [trigger_templated_webhook, hdb, hres]
  · rw [hres] at hnotok
    simp [isOkE] at hnotok

/-- C2 witness: the spec's scenario — URL pattern `https://x/{id}`, body
`{"msg": "hi {name}"}`, values supplying only `id`. -/
theorem missing_placeholder_fails_resolution_witness :
    ∃ name, List.lookup name [("id", Value.str "7")] = none ∧
      name ∈ templatePlaceholders ⟨"A", "POST", "https://x/{id}", [],
        .obj [("msg", .str "hi {name}")]⟩ ∧
      resolveTemplate ⟨"A", "POST", "https://x/{id}", [], .obj [("msg", .str "hi {name}")]⟩
        [("id", Value.str "7")] = .error name ∧
      trigger_templated_webhook (fun _ => .otherError "x")
        [("i1", { toWebhookTemplateCreate :=
          ⟨"A", "POST", "https://x/{id}", [], .obj [("msg", .str "hi {name}")]⟩, id := "i1" })]
        "i1" [("id", Value.str "7")] true =
        (none, .error (.missingPlaceholder name)) ∧
      TriggerError.status_code (.missingPlaceholder name) = 400 :=
  missing_placeholder_fails_resolution (fun _ => .otherError "x")
    [("i1", { toWebhookTemplateCreate :=
      ⟨"A", "POST", "https://x/{id}", [], .obj [("msg", .str "hi {name}")]⟩, id := "i1" })]
    "i1"
    { toWebhookTemplateCreate :=
      ⟨"A", "POST", "https://x/{id}", [], .obj [("msg", .str "hi {name}")]⟩, id := "i1" }
    [("id", Value.str "7")] true rfl rfl

/-- C3.  For every template and value set supplying every referenced
placeholder, resolution succeeds: the URL and the header values are the
scanner renderings, the body is the recursive rendering of the body pattern
tree (wrapped as a one-entry `data` mapping when that rendering is not a
mapping), and the resolved body is always a mapping. -/
theorem complete_values_resolve_ok (t : WebhookTemplateCreate) (values : List (String × Value))
    (hall : (templatePlaceholders t).all (fun n => (List.lookup n values).isSome) = true) :
    ∃ url headers body0,
      pyFormat values t.url_template = .ok url ∧
      formatHeaders values t.headers_template = .ok headers ∧
      format_recursive values t.body_template = .ok body0 ∧
      resolveTemplate t values = .ok ⟨t.method, url, headers, ensure_dict body0⟩ ∧
      (ensure_dict body0).isObj = true := by
  have hres := (resolveTemplate_ok_iff t values).mpr (fun n hn => List.all_eq_true.mp hall n hn)
  rcases hr : resolveTemplate t values with e | r
  · rw [hr] at hres
    simp [isOkE] at hres
  · obtain ⟨hm, hu, hh, body0, hb, hbody⟩ := resolveTemplate_ok_parts t values r hr
    refine ⟨r.url, r.headers, body0, hu, hh, hb, ?_, ensure_dict_isObj body0⟩
    exact congrArg Except.ok (by rw [← hm, ← hbody])

/-- C3 witness: the spec's scenario — URL pattern `https://x/{id}`, body
`{"msg": "hi {name}"}`, values `id = 7`, `name = Al`. -/
theorem complete_values_resolve_ok_witness :
    ∃ url headers body0,
      pyFormat [("id", Value.str "7"), ("name", Value.str "Al")] "https://x/{id}" = .ok url ∧
      formatHeaders [("id", Value.str "7"), ("name", Value.str "Al")] [] = .ok headers ∧
      format_recursive [("id", Value.str "7"), ("name", Value.str "Al")]
        (.obj [("msg", .str "hi {name}")]) = .ok body0 ∧
      resolveTemplate ⟨"A", "POST", "https://x/{id}", [], .obj [("msg", .str "hi {name}")]⟩
        [("id", Value.str "7"), ("name", Value.str "Al")] =
        .ok ⟨"POST", url, headers, ensure_dict body0⟩ ∧
      (ensure_dict body0).isObj = true :=
  complete_values_resolve_ok ⟨"A", "POST", "https://x/{id}", [], .obj [("msg", .str "hi {name}")]⟩
    [("id", Value.str "7"), ("name", Value.str "Al")] rfl

/-- C4.  main.py's dispatcher with `wait_for_response = false` returns the
accepted outcome (status `accepted`, message, and a request description
holding only method and URL) for every transport, never an error — while
core.py's twin dispatcher on the same path evaluates the undefined name
`_handle_async_task` and so answers with the 500 dispatch-failure error
instead, issuing no request at all. -/
theorem fire_and_forget_outcome (transport : Request → TransportResult)
    (method url : String) (headers : List (String × String)) (json_body : Json) :
    send_webhook transport method url headers json_body false =
      (some ⟨method, url, headers, json_body⟩,
        .ok (.accepted "Webhook request has been sent asynchronously" method url)) ∧
    (WebhookOutcome.accepted "Webhook request has been sent asynchronously" method url).webhook_status =
      "accepted" ∧
    core_send_webhook transport method url headers json_body false =
      (none, .error (.dispatchFailure "name _handle_async_task is not defined")) :=
  ⟨rfl, rfl, rfl⟩

/-- C5.  On the waiting dispatch path a transport-level `RequestError`
becomes the 503 `Unreachable` error naming the target URL and the cause,
any other exception becomes the 500 `DispatchFailure` error carrying the
cause, a transport response never yields an error, and every error the path
produces is one of those two. -/
theorem wait_dispatch_error_taxonomy (transport : Request → TransportResult)
    (method url : String) (headers : List (String × String)) (json_body : Json) :
    (∀ cause, transport ⟨method, url, headers, json_body⟩ = .requestError cause →
      (send_webhook transport method url headers json_body true).2 =
        .error (.unreachable url cause) ∧
      DispatchError.status_code (.unreachable url cause) = 503) ∧
    (∀ cause, transport ⟨method, url, headers, json_body⟩ = .otherError cause →
      (send_webhook transport method url headers json_body true).2 =
        .error (.dispatchFailure cause) ∧
      DispatchError.status_code (.dispatchFailure cause) = 500) ∧
    (∀ resp, transport ⟨method, url, headers, json_body⟩ = .response resp →
      isOkE (send_webhook transport method url headers json_body true).2 = true) ∧
    (∀ e, (send_webhook transport method url headers json_body true).2 = .error e →
      (∃ cause, transport ⟨method, url, headers, json_body⟩ = .requestError cause ∧
        e = .unreachable url cause) ∨
      (∃ cause, transport ⟨method, url, headers, json_body⟩ = .otherError cause ∧
        e = .dispatchFailure cause)) := by
  refine ⟨fun cause h => ?_, fun cause h => ?_, fun resp h => ?_, fun e h => ?_⟩
  · exact ⟨by simp [send_webhook, h], rfl⟩
  · exact ⟨by simp [send_webhook, h], rfl⟩
  · simp [send_webhook, h, isOkE]
  · rcases htr : transport ⟨method, url, headers, json_body⟩ with resp | cause | cause <;>
      simp [send_webhook, htr] at h
    · exact Or.inl ⟨cause, rfl, h.symm⟩
    · exact Or.inr ⟨cause, rfl, h.symm⟩

/-- C7.  Resolution renders only the header values: the resolved header
mapping is the rendering of the header-value patterns, and its header names
are exactly the template's header names, copied verbatim. -/
theorem header_names_copied_verbatim (t : WebhookTemplateCreate)
    (values : List (String × Value)) (r : ResolvedRequest)
    (h : resolveTemplate t values = .ok r) :
    formatHeaders values t.headers_template = .ok r.headers ∧
    r.headers.map Prod.fst = t.headers_template.map Prod.fst := by
  obtain ⟨-, -, hh, -⟩ := resolveTemplate_ok_parts t values r h
  exact ⟨hh, formatHeaders_keys values t.headers_template r.headers hh⟩

/-- C7 witness: a template with one header whose value pattern references
`{name}`. -/
theorem header_names_copied_verbatim_witness :
    formatHeaders [("name", Value.str "Bob")] [("X-User", "u {name}")] =
      .ok [("X-User", "u Bob")] ∧
    ([("X-User", "u Bob")] : List (String × String)).map Prod.fst =
      ([("X-User", "u {name}")] : List (String × String)).map Prod.fst :=
  header_names_copied_verbatim
    ⟨"A", "POST", "https://x/", [("X-User", "u {name}")], Json.null⟩
    [("name", Value.str "Bob")]
    ⟨"POST", "https://x/", [("X-User", "u Bob")], .obj [("data", .null)]⟩ rfl

/-- C8.  Resolution is deterministic: two successful resolutions of the same
template against the same value set are the same request — same URL, same
header mapping, same body. -/
theorem resolve_deterministic (t : WebhookTemplateCreate) (values : List (String × Value))
    (r1 r2 : ResolvedRequest)
    (h1 : resolveTemplate t values = .ok r1) (h2 : resolveTemplate t values = .ok r2) :
    r1 = r2 ∧ r1.url = r2.url ∧ r1.headers = r2.headers ∧ r1.body = r2.body := by
  have h := h1.symm.trans h2
  injection h with h
  exact ⟨h, by rw [h], by rw [h], by rw [h]⟩

/-- C8 witness: resolving the spec's scenario twice. -/
theorem resolve_deterministic_witness :
    (⟨"POST", "https://x/7", [], .obj [("msg", .str "hi Al")]⟩ : ResolvedRequest) =
      ⟨"POST", "https://x/7", [], .obj [("msg", .str "hi Al")]⟩ ∧
    (⟨"POST", "https://x/7", [], .obj [("msg", .str "hi Al")]⟩ : ResolvedRequest).url =
      (⟨"POST", "https://x/7", [], .obj [("msg", .str "hi Al")]⟩ : ResolvedRequest).url ∧
    (⟨"POST", "https://x/7", [], .obj [("msg", .str "hi Al")]⟩ : ResolvedRequest).headers =
      (⟨"POST", "https://x/7", [], .obj [("msg", .str "hi Al")]⟩ : ResolvedRequest).headers ∧
    (⟨"POST", "https://x/7", [], .obj [("msg", .str "hi Al")]⟩ : ResolvedRequest).body =
      (⟨"POST", "https://x/7", [], .obj [("msg", .str "hi Al")]⟩ : ResolvedRequest).body :=
  resolve_deterministic ⟨"A", "POST", "https://x/{id}", [], .obj [("msg", .str "hi {name}")]⟩
    [("id", Value.str "7"), ("name", Value.str "Al")]
    ⟨"POST", "https://x/7", [], .obj [("msg", .str "hi Al")]⟩
    ⟨"POST", "https://x/7", [], .obj [("msg", .str "hi Al")]⟩ rfl rfl

/-- C9.  Updating a stored template under a non-conflicting name mutates the
store correctly — the entry keeps its id and takes all five new fields — but
the endpoint's response construction then passes the keyword `id` twice and
raises `TypeError`, so the call answers 500 instead of returning the updated
template. -/
theorem update_response_type_error :
    update_template [("i1", (⟨⟨"A", "POST", "https://a/", [], Json.null⟩, "i1"⟩ : WebhookTemplate))]
      "i1" ⟨"B", "GET", "https://b/", [("H", "v")], Json.obj []⟩ =
    ([("i1", (⟨⟨"B", "GET", "https://b/", [("H", "v")], Json.obj []⟩, "i1"⟩ : WebhookTemplate))],
      .error (.typeError "got multiple values for keyword argument id")) :=
  rfl

/-- A successful rendering of a mapping node is a mapping node. -/
theorem format_recursive_preserves_obj (values : List (String × Value)) (j b : Json)
    (hobj : j.isObj = true) (h : format_recursive values j = .ok b) :
    b.isObj = true := by
  cases j <;> simp [Json.isObj] at hobj
  rw [show format_recursive values (.obj _) = (formatFields values _).map Json.obj from rfl] at h
  rcases hf : formatFields values _ with e | fs2 <;> rw [hf] at h
  · cases h
  · cases h
    rfl

/-- C10.  When the stored body pattern is a mapping — as the public
interface's `body_template: Dict[str, Any]` declaration guarantees — the
rendered body is itself a mapping, so the resolved body is exactly the
rendering and the `data`-wrapping branch is never taken. -/
theorem stored_body_mapping_never_wrapped (t : WebhookTemplateCreate)
    (values : List (String × Value)) (r : ResolvedRequest)
    (hobj : t.body_template.isObj = true) (h : resolveTemplate t values = .ok r) :
    format_recursive values t.body_template = .ok r.body ∧ r.body.isObj = true := by
  obtain ⟨-, -, -, body0, hb, hbody⟩ := resolveTemplate_ok_parts t values r h
  have hb0 : body0.isObj = true := format_recursive_preserves_obj values t.body_template body0 hobj hb
  have hwrap : ensure_dict body0 = body0 := by rw [ensure_dict, if_pos hb0]
  rw [hbody, hwrap]
  exact ⟨hb, hb0⟩

/-- C10 witness: a mapping body pattern resolves to the rendered mapping
itself. -/
theorem stored_body_mapping_never_wrapped_witness :
    format_recursive [("name", Value.str "Al")] (.obj [("msg", .str "hi {name}")]) =
      .ok ((⟨"POST", "https://x/", [], .obj [("msg", .str "hi Al")]⟩ : ResolvedRequest).body) ∧
    ((⟨"POST", "https://x/", [], .obj [("msg", .str "hi Al")]⟩ : ResolvedRequest).body).isObj = true :=
  stored_body_mapping_never_wrapped
    ⟨"A", "POST", "https://x/", [], .obj [("msg", .str "hi {name}")]⟩
    [("name", Value.str "Al")]
    ⟨"POST", "https://x/", [], .obj [("msg", .str "hi Al")]⟩ rfl rfl

/-- C6.  Template names are unique in the store: a create whose name some
stored template already bears, and an update whose requested name some
template with a different id already bears, answer with the 409 name
conflict and leave the store exactly as it was; and each of the three store
operations — hence every sequence of them — preserves the uniqueness
invariant (distinct ids, distinct names). -/
theorem name_uniqueness_invariant (db : Db) (template_id : String) (tc : WebhookTemplateCreate)
    (ops : List StoreOp) (inv : StoreInv db) :
    ((∃ e ∈ db, e.2.name = tc.name) →
      create_template db template_id tc = (db, .error (.nameConflict tc.name))) ∧
    ((List.lookup template_id db).isSome = true →
      (∃ e ∈ db, e.2.name = tc.name ∧ e.1 ≠ template_id) →
      update_template db template_id tc = (db, .error (.nameConflict tc.name))) ∧
    StoreInv (create_template db template_id tc).1 ∧
    StoreInv (update_template db template_id tc).1 ∧
    StoreInv (delete_template db template_id).1 ∧
    StoreInv (applyOps db ops) := by
  refine ⟨?_, ?_, create_template_inv db template_id tc inv,
    update_template_inv db template_id tc inv, delete_template_inv db template_id inv,
    applyOps_inv db ops inv⟩
  · rintro ⟨e, he, hen⟩
    have hany : (db.any fun x => x.2.name == tc.name) = true :=
      List.any_eq_true.mpr ⟨e, he, beq_iff_eq.mpr hen⟩
    rw [create_template, if_pos hany]
  · intro hsome
    rintro ⟨e, he, hen, hne⟩
    have hnone : ¬ (List.lookup template_id db).isNone = true := by
      rcases hl : List.lookup template_id db with _ | x
      · rw [hl] at hsome
        simp at hsome
      · simp
    have hany : (db.any fun x => x.2.name == tc.name && x.1 != template_id) = true :=
      List.any_eq_true.mpr ⟨e, he, by
        simp only [Bool.and_eq_true, bne_iff_ne, ne_eq]
        exact ⟨beq_iff_eq.mpr hen, hne⟩⟩
    rw [update_template, if_neg hnone, if_pos hany]

/-- C6 witness: a one-template store, a colliding create name, and a
one-operation sequence. -/
theorem name_uniqueness_invariant_witness :
    ((∃ e ∈ [("i1", (⟨⟨"A", "POST", "https://a/", [], Json.null⟩, "i1"⟩ : WebhookTemplate))],
        e.2.name = ("A" : String)) →
      create_template [("i1", (⟨⟨"A", "POST", "https://a/", [], Json.null⟩, "i1"⟩ : WebhookTemplate))]
        "i2" ⟨"A", "POST", "https://c/", [], Json.null⟩ =
        ([("i1", (⟨⟨"A", "POST", "https://a/", [], Json.null⟩, "i1"⟩ : WebhookTemplate))],
          .error (.nameConflict "A"))) ∧
    ((List.lookup "i2"
        [("i1", (⟨⟨"A", "POST", "https://a/", [], Json.null⟩, "i1"⟩ : WebhookTemplate))]).isSome = true →
      (∃ e ∈ [("i1", (⟨⟨"A", "POST", "https://a/", [], Json.null⟩, "i1"⟩ : WebhookTemplate))],
        e.2.name = ("A" : String) ∧ e.1 ≠ "i2") →
      update_template [("i1", (⟨⟨"A", "POST", "https://a/", [], Json.null⟩, "i1"⟩ : WebhookTemplate))]
        "i2" ⟨"A", "POST", "https://c/", [], Json.null⟩ =
        ([("i1", (⟨⟨"A", "POST", "https://a/", [], Json.null⟩, "i1"⟩ : WebhookTemplate))],
          .error (.nameConflict "A"))) ∧
    StoreInv (create_template [("i1", (⟨⟨"A", "POST", "https://a/", [], Json.null⟩, "i1"⟩ : WebhookTemplate))]
      "i2" ⟨"A", "POST", "https://c/", [], Json.null⟩).1 ∧
    StoreInv (update_template [("i1", (⟨⟨"A", "POST", "https://a/", [], Json.null⟩, "i1"⟩ : WebhookTemplate))]
      "i2" ⟨"A", "POST", "https://c/", [], Json.null⟩).1 ∧
    StoreInv (delete_template [("i1", (⟨⟨"A", "POST", "https://a/", [], Json.null⟩, "i1"⟩ : WebhookTemplate))]
      "i2").1 ∧
    StoreInv (applyOps [("i1", (⟨⟨"A", "POST", "https://a/", [], Json.null⟩, "i1"⟩ : WebhookTemplate))]
      [.create "i2" ⟨"B", "POST", "https://b/", [], Json.null⟩]) :=
  name_uniqueness_invariant
    [("i1", (⟨⟨"A", "POST", "https://a/", [], Json.null⟩, "i1"⟩ : WebhookTemplate))]
    "i2" ⟨"A", "POST", "https://c/", [], Json.null⟩
    [.create "i2" ⟨"B", "POST", "https://b/", [], Json.null⟩]
    ⟨by decide, by decide⟩
end HookApi
